import Mathlib

/-!
Verification of the image-processing core of the Openroom photo editor
(`src-tauri/src/image_io.rs`, `src-tauri/src/gpu.rs`, `src-tauri/src/models.rs`).

Shallow embedding conventions:
* `f32` slider values and normalized pixel channels are embedded as rationals (`ℚ`);
  every arithmetic step mirrors the source expression.  `2f32.powf` is kept abstract
  as a function parameter `pow2 : ℚ → ℚ` because both compared code paths invoke the
  very same library call on the same argument.
* RGBA8 bytes are `Nat` values; the Rust `as u8` saturating cast after `round()` is
  `roundU8`.
* External collaborators (the image codec libraries, the filesystem, the GPU device,
  the PNG encoder, the CPU resample kernel) are parameters of a context record; the
  repository's own control flow around them is embedded verbatim.
* The shared preview cache (`DashMap`s plus an LRU `VecDeque` behind a mutex) is
  embedded as explicit state passed through each operation, in the sequential order
  in which one caller executes them.
-/

namespace Openroom

/-- One RGBA8 pixel: byte values in the working buffer (`Rgba<u8>`). -/
structure Px where
  r : Nat
  g : Nat
  b : Nat
  a : Nat
deriving DecidableEq, Repr

/-- Saturating clamp to the unit interval: `x.clamp(0.0, 1.0)` on the CPU path and
`clamp(x, 0.0, 1.0)` in WGSL both compute `min (max x 0) 1`. -/
def clamp01 (x : ℚ) : ℚ := min (max x 0) 1

/-- `v.round() as u8`: round to the nearest integer, then saturate into `0..=255`
(Rust float-to-int casts saturate).  `round` is `Rat.round`; both compared pipelines
use this single function, so the tie convention at half-samples cannot separate them. -/
def roundU8 (x : ℚ) : Nat := (min 255 (max 0 (round x))).toNat

/-- The ten global sliders of `GlobalAdjustments` (models.rs); all default to zero. -/
structure GlobalAdjustments where
  exposure_ev : ℚ
  contrast : ℚ
  highlights : ℚ
  shadows : ℚ
  whites : ℚ
  blacks : ℚ
  temp : ℚ
  tint : ℚ
  vibrance : ℚ
  saturation : ℚ
deriving DecidableEq, Repr

/-- The all-zero (default) `GlobalAdjustments`. -/
def GlobalAdjustments.zero : GlobalAdjustments := ⟨0, 0, 0, 0, 0, 0, 0, 0, 0, 0⟩

/-- Per-pixel body of `apply_globals_in_place` (image_io.rs, lines 587-651): the
closure mapped by `par_chunks_mut(4)` over one RGBA pixel, with the derived slider
constants computed exactly as in the enclosing function.  `pow2` stands for the
`2f32.powf` call on `globals.exposure_ev`. -/
def apply_globals_pixel (pow2 : ℚ → ℚ) (g : GlobalAdjustments) (p : Px) : Px :=
  let exposure_mul := pow2 g.exposure_ev
  let contrast := g.contrast / 100
  let highlights := g.highlights / 100
  let shadows := g.shadows / 100
  let whites := g.whites / 100
  let blacks := g.blacks / 100
  let vibrance := g.vibrance / 100
  let saturation := g.saturation / 100
  let temp := g.temp / 100
  let tint := g.tint / 100
  let c0 : ℚ := (p.r : ℚ) / 255
  let c1 : ℚ := (p.g : ℚ) / 255
  let c2 : ℚ := (p.b : ℚ) / 255
  let c3 : ℚ := (p.a : ℚ) / 255
  let a := c3
  let c0 := c0 * exposure_mul
  let c1 := c1 * exposure_mul
  let c2 := c2 * exposure_mul
  let c0 := c0 * (1 + temp * 0.5 + tint * 0.2)
  let c2 := c2 * (1 - temp * 0.5 + tint * 0.2)
  let c1 := c1 * (1 - tint * 0.2)
  let l := 0.2126 * c0 + 0.7152 * c1 + 0.0722 * c2
  let highlights_mask := max (l - 0.5) 0 * 2
  let shadows_mask := max (0.5 - l) 0 * 2
  let c0 := c0 * (1 + highlights * highlights_mask)
  let c0 := c0 * (1 + shadows * shadows_mask)
  let c1 := c1 * (1 + highlights * highlights_mask)
  let c1 := c1 * (1 + shadows * shadows_mask)
  let c2 := c2 * (1 + highlights * highlights_mask)
  let c2 := c2 * (1 + shadows * shadows_mask)
  let c0 := c0 + whites * 0.1
  let c0 := c0 - blacks * 0.1
  let c1 := c1 + whites * 0.1
  let c1 := c1 - blacks * 0.1
  let c2 := c2 + whites * 0.1
  let c2 := c2 - blacks * 0.1
  let c0 := (c0 - 0.5) * (1 + contrast) + 0.5
  let c1 := (c1 - 0.5) * (1 + contrast) + 0.5
  let c2 := (c2 - 0.5) * (1 + contrast) + 0.5
  let l := 0.2126 * c0 + 0.7152 * c1 + 0.0722 * c2
  let sat_factor := 1 + saturation
  let vib_mask := clamp01 (1 - (|c0 - l| + |c1 - l| + |c2 - l|) / 3)
  let vib_factor := 1 + vibrance * vib_mask
  let c0 := l + (c0 - l) * sat_factor * vib_factor
  let c1 := l + (c1 - l) * sat_factor * vib_factor
  let c2 := l + (c2 - l) * sat_factor * vib_factor
  let c0 := clamp01 c0
  let c1 := clamp01 c1
  let c2 := clamp01 c2
  ⟨roundU8 (c0 * 255), roundU8 (c1 * 255), roundU8 (c2 * 255), roundU8 (a * 255)⟩

/-- The WGSL uniform block `Globals` of the shader in gpu.rs; the two trailing
`_pad` floats are pure layout padding and carry no data. -/
structure ShaderGlobals where
  exposure_mul : ℚ
  contrast : ℚ
  highlights : ℚ
  shadows : ℚ
  whites : ℚ
  blacks : ℚ
  vibrance : ℚ
  saturation : ℚ
  temp : ℚ
  tint : ℚ
deriving DecidableEq, Repr

/-- The uniform packing of `apply_globals_rgba` (gpu.rs lines 532-547):
`data_f32 = [2^exposure_ev, contrast/100, highlights/100, shadows/100, whites/100,
blacks/100, vibrance/100, saturation/100, temp/100, tint/100, 0, 0]`, laid out in
the field order of the WGSL `Globals` struct. -/
def pack_globals (pow2 : ℚ → ℚ) (g : GlobalAdjustments) : ShaderGlobals :=
  ⟨pow2 g.exposure_ev, g.contrast / 100, g.highlights / 100, g.shadows / 100,
   g.whites / 100, g.blacks / 100, g.vibrance / 100, g.saturation / 100,
   g.temp / 100, g.tint / 100⟩

/-- The fragment shader `fs_globals` (gpu.rs shader source, lines 102-131), acting on
one sampled texel `c : vec4f` of normalized channels; component-wise vector
operations are written per channel. -/
def fs_globals (u : ShaderGlobals) (c : ℚ × ℚ × ℚ × ℚ) : ℚ × ℚ × ℚ × ℚ :=
  let r := c.1 * u.exposure_mul
  let g := c.2.1 * u.exposure_mul
  let b := c.2.2.1 * u.exposure_mul
  let r := r * (1 + u.temp * 0.5 + u.tint * 0.2)
  let b := b * (1 - u.temp * 0.5 + u.tint * 0.2)
  let g := g * (1 - u.tint * 0.2)
  let l := 0.2126 * r + 0.7152 * g + 0.0722 * b
  let highlights_mask := max (l - 0.5) 0 * 2
  let shadows_mask := max (0.5 - l) 0 * 2
  let r := r * (1 + u.highlights * highlights_mask)
  let r := r * (1 + u.shadows * shadows_mask)
  let g := g * (1 + u.highlights * highlights_mask)
  let g := g * (1 + u.shadows * shadows_mask)
  let b := b * (1 + u.highlights * highlights_mask)
  let b := b * (1 + u.shadows * shadows_mask)
  let r := r + u.whites * 0.1
  let r := r - u.blacks * 0.1
  let g := g + u.whites * 0.1
  let g := g - u.blacks * 0.1
  let b := b + u.whites * 0.1
  let b := b - u.blacks * 0.1
  let r := (r - 0.5) * (1 + u.contrast) + 0.5
  let g := (g - 0.5) * (1 + u.contrast) + 0.5
  let b := (b - 0.5) * (1 + u.contrast) + 0.5
  let l2 := 0.2126 * r + 0.7152 * g + 0.0722 * b
  let vib_mask := clamp01 (1 - (|r - l2| + |g - l2| + |b - l2|) / 3)
  let vib_factor := 1 + u.vibrance * vib_mask
  let sat_factor := 1 + u.saturation
  let r := l2 + (r - l2) * sat_factor * vib_factor
  let g := l2 + (g - l2) * sat_factor * vib_factor
  let b := l2 + (b - l2) * sat_factor * vib_factor
  let r := clamp01 r
  let g := clamp01 g
  let b := clamp01 b
  (r, g, b, c.2.2.2)

/-- Fetching one RGBA8 texel as normalized channels (what `textureSample` hands the
fragment shader for an 8-bit texture). -/
def texel_of_px (p : Px) : ℚ × ℚ × ℚ × ℚ :=
  ((p.r : ℚ) / 255, (p.g : ℚ) / 255, (p.b : ℚ) / 255, (p.a : ℚ) / 255)

/-- Storing a normalized RGBA value back into 8-bit bytes: round and saturate each
channel, exactly the quantization the CPU path performs on its own result. -/
def px_of_texel (c : ℚ × ℚ × ℚ × ℚ) : Px :=
  ⟨roundU8 (c.1 * 255), roundU8 (c.2.1 * 255), roundU8 (c.2.2.1 * 255),
   roundU8 (c.2.2.2 * 255)⟩

/-- `LocalAdjustments` (models.rs): the reduced slider set of a local layer. -/
structure LocalAdjustments where
  exposure_ev : ℚ
  temp : ℚ
  tint : ℚ
  saturation : ℚ
deriving DecidableEq, Repr

/-- `Mask` (models.rs): a linear-gradient descriptor.  The source field `end` is a
Lean keyword and is embedded as `stop`. -/
structure Mask where
  mask_type : String
  start : ℚ × ℚ
  stop : ℚ × ℚ
  feather : ℚ
  invert : Bool
deriving DecidableEq, Repr

/-- `AdjustmentLayer` (models.rs). -/
structure AdjustmentLayer where
  id : String
  name : String
  enabled : Bool
  opacity : ℚ
  mask : Mask
  adjustments : LocalAdjustments
deriving DecidableEq, Repr

/-- `EditRecipe` (models.rs). -/
structure EditRecipe where
  version : Nat
  globals : GlobalAdjustments
  layers : List AdjustmentLayer
deriving DecidableEq, Repr

/-- An owned RGBA8 buffer (`RgbaImage`): dimensions plus the pixel list in row-major
order. -/
structure Img where
  w : Nat
  h : Nat
  data : List Px
deriving DecidableEq, Repr

/-- `apply_globals_in_place` (image_io.rs lines 587-651): the data-parallel map of the
per-pixel body over every 4-byte chunk of the buffer. -/
def apply_globals_in_place (pow2 : ℚ → ℚ) (g : GlobalAdjustments) (data : List Px) :
    List Px :=
  data.map (apply_globals_pixel pow2 g)

/-- `globals_are_identity` (image_io.rs lines 653-665): every slider within
`eps = 1e-4` of zero. -/
def globals_are_identity (g : GlobalAdjustments) : Bool :=
  let eps : ℚ := 1 / 10000
  decide (|g.exposure_ev| < eps) && decide (|g.contrast| < eps) &&
    decide (|g.highlights| < eps) && decide (|g.shadows| < eps) &&
    decide (|g.whites| < eps) && decide (|g.blacks| < eps) &&
    decide (|g.temp| < eps) && decide (|g.tint| < eps) &&
    decide (|g.vibrance| < eps) && decide (|g.saturation| < eps)

/-- `layers_have_effect` (image_io.rs lines 667-671): some layer is enabled with
positive opacity. -/
def layers_have_effect (layers : List AdjustmentLayer) : Bool :=
  layers.any (fun layer => layer.enabled && decide (0 < layer.opacity))

/-- `apply_local_layer_in_place` (image_io.rs lines 673-741): gradient-masked local
adjustment of one layer over the buffer.  The enumerated pixel index yields the
normalized coordinate; a zero image dimension would be a NaN in f32 and is a `0`
division here (unreachable for decoded images). -/
def apply_local_layer_in_place (pow2 : ℚ → ℚ) (w h : Nat) (layer : AdjustmentLayer)
    (data : List Px) : List Px :=
  if !layer.enabled || decide (layer.opacity ≤ 0) then data
  else
    let start := layer.mask.start
    let stop := layer.mask.stop
    let feather := max layer.mask.feather 0.001
    let invert := layer.mask.invert
    let opacity := layer.opacity
    let adj := layer.adjustments
    let temp := adj.temp / 100
    let tint := adj.tint / 100
    let exposure_mul := pow2 adj.exposure_ev
    let saturation := adj.saturation / 100
    let dx := stop.1 - start.1
    let dy := stop.2 - start.2
    let len_sq := max (dx * dx + dy * dy) (1 / 1000000)
    (data.enum).map (fun ip =>
      let idx := ip.1
      let px := ip.2
      let x : ℚ := ((idx % w : Nat) : ℚ) / (w : ℚ)
      let y : ℚ := ((idx / w : Nat) : ℚ) / (h : ℚ)
      let pxv := x - start.1
      let pyv := y - start.2
      let t := (pxv * dx + pyv * dy) / len_sq
      let t_clamped := clamp01 t
      let edge0 := 0.5 - feather * 0.5
      let edge1 := 0.5 + feather * 0.5
      let mask := clamp01 ((t_clamped - edge0) / (edge1 - edge0))
      let mask := mask * mask * (3 - 2 * mask)
      let mask := if invert then 1 - mask else mask
      let mask := mask * opacity
      if mask ≤ 1 / 10000 then px
      else
        let c0 := (px.r : ℚ) / 255
        let c1 := (px.g : ℚ) / 255
        let c2 := (px.b : ℚ) / 255
        let c0 := c0 * exposure_mul
        let c1 := c1 * exposure_mul
        let c2 := c2 * exposure_mul
        let c0 := c0 * (1 + temp * 0.5 + tint * 0.2)
        let c2 := c2 * (1 - temp * 0.5 + tint * 0.2)
        let c1 := c1 * (1 - tint * 0.2)
        let l := 0.2126 * c0 + 0.7152 * c1 + 0.0722 * c2
        let sat_factor := 1 + saturation
        let c0 := l + (c0 - l) * sat_factor
        let c1 := l + (c1 - l) * sat_factor
        let c2 := l + (c2 - l) * sat_factor
        let c0 := clamp01 c0
        let c1 := clamp01 c1
        let c2 := clamp01 c2
        ⟨roundU8 (((px.r : ℚ) / 255 * (1 - mask) + c0 * mask) * 255),
         roundU8 (((px.g : ℚ) / 255 * (1 - mask) + c1 * mask) * 255),
         roundU8 (((px.b : ℚ) / 255 * (1 - mask) + c2 * mask) * 255),
         px.a⟩)

/-- `apply_layers_in_place` (image_io.rs lines 743-750): sequential fold of the
layers over the accumulated buffer. -/
def apply_layers_in_place (pow2 : ℚ → ℚ) (w h : Nat) (layers : List AdjustmentLayer)
    (data : List Px) : List Px :=
  if layers.isEmpty then data
  else layers.foldl (fun d layer => apply_local_layer_in_place pow2 w h layer d) data

/-- External collaborators of the core, bundled as one read-only context:
* `decode` — the outcome of `load_dynamic_image(path).to_rgba8()` for a path
  (the decode chain itself is embedded separately as `load_dynamic_image`);
* `gpuResize` — pixel content produced by `gpu::resize_rgba`, which by construction
  always returns a buffer of exactly the requested dimensions, or `none` on any
  GPU failure/guardrail;
* `cpuResize` — pixel content of `imageops::resize(_, nw, nh, CatmullRom)`;
* `gpuApplyGlobals` — `gpu::apply_globals_rgba` (same-size output or `none`);
* `pow2` — `2f32.powf`;
* `encodePng` — `encode_png_fast`'s PNG serialization of a buffer. -/
structure Ctx where
  decode : String → Except String Img
  gpuAvailable : Bool
  gpuResize : Img → Nat → Nat → Option (List Px)
  cpuResize : Img → Nat → Nat → List Px
  gpuApplyGlobals : Img → GlobalAdjustments → Option Img
  pow2 : ℚ → ℚ
  encodePng : Img → Except String (List Nat)

/-- `target_size` (image_io.rs lines 44-55).  The f32 expression
`((max_dimension as f32 / w as f32) * h as f32) as u32` is embedded as the exact
floor `max_dimension * h / w`; both stay at or below `max_dimension` whenever
`h ≤ w`, the only fact about the scaled side this development relies on. -/
def target_size (w h max_dimension : Nat) : Nat × Nat :=
  if w = 0 ∨ h = 0 then (1, 1)
  else if h ≤ w then (max_dimension, max (max_dimension * h / w) 1)
  else (max (max_dimension * w / h) 1, max_dimension)

/-- `resize_rgba_preserve_aspect` (image_io.rs lines 89-103): aspect-preserving
resize to `target_size`, returning the input unchanged when the size already
matches, preferring the GPU path when available. -/
def resize_rgba_preserve_aspect (ctx : Ctx) (img : Img) (max_dimension : Nat) : Img :=
  let md := max max_dimension 1
  let nwh := target_size img.w img.h md
  if nwh.1 = img.w ∧ nwh.2 = img.h then img
  else
    let viaGpu := if ctx.gpuAvailable then ctx.gpuResize img nwh.1 nwh.2 else none
    match viaGpu with
    | some out => ⟨nwh.1, nwh.2, out⟩
    | none => ⟨nwh.1, nwh.2, ctx.cpuResize img nwh.1 nwh.2⟩

/-- `render_resized` (image_io.rs lines 555-562): decode, then downscale so that the
requested dimension is never allowed to upscale beyond the source's larger side. -/
def render_resized (ctx : Ctx) (path : String) (max_dimension : Nat) :
    Except String Img :=
  let target := max max_dimension 1
  match ctx.decode path with
  | .error e => .error e
  | .ok rgba =>
    let source_max := max (max rgba.w rgba.h) 1
    let clamped_target := min target source_max
    .ok (resize_rgba_preserve_aspect ctx rgba clamped_target)

/-- Cache bounds (image_io.rs lines 31-34). -/
def PREVIEW_CACHE_ASSETS : Nat := 2

/-- Band floor for requested preview dimensions. -/
def PREVIEW_MIN_DIM : Nat := 480

/-- Band ceiling for requested preview dimensions. -/
def PREVIEW_MAX_DIM : Nat := 3200

/-- Base decode envelope for a fresh master. -/
def PREVIEW_MASTER_BASE : Nat := 1920

/-- `cache_key` (image_io.rs lines 36-38): `format!("{asset_id}:{max_dimension}")`. -/
def cache_key (asset_id : String) (max_dimension : Nat) : String :=
  asset_id ++ ":" ++ toString max_dimension

/-- `normalize_dimension` (image_io.rs lines 40-42): clamp into the fixed band. -/
def normalize_dimension (dim : Nat) : Nat :=
  min (max dim PREVIEW_MIN_DIM) PREVIEW_MAX_DIM

/-- Rust `str::starts_with`, embedded on the character list. -/
def strStarts (pre s : String) : Bool := pre.data.isPrefixOf s.data

/-- Map lookup for the embedded `DashMap`s (an association list with unique keys). -/
def alookup (k : String) : List (String × α) → Option α
  | [] => none
  | (k2, v) :: rest => if k2 = k then some v else alookup k rest

/-- Map insert for the embedded `DashMap`s: the new binding replaces any old one. -/
def ainsert (k : String) (v : α) (m : List (String × α)) : List (String × α) :=
  (k, v) :: m.filter (fun p => p.1 != k)

/-- Map removal for the embedded `DashMap`s. -/
def aremove (k : String) (m : List (String × α)) : List (String × α) :=
  m.filter (fun p => p.1 != k)

/-- A resident master (`CachedPreview`, image_io.rs lines 23-27): the buffer plus the
larger of its sides. -/
structure CachedPreview where
  buf : Img
  max_dim : Nat
deriving DecidableEq, Repr

/-- The shared preview cache (image_io.rs lines 28-30) as explicit state:
`PREVIEW_MASTERS`, `PREVIEW_VARIANTS`, the `PREVIEW_LRU` recency queue, plus an
instrumentation log recording the dimension of every `load_dynamic_image` decode
performed through `render_resized` on behalf of the cache. -/
structure CacheState where
  masters : List (String × CachedPreview)
  variants : List (String × Img)
  lru : List String
  decodeLog : List Nat
deriving DecidableEq, Repr

/-- The empty cache. -/
def CacheState.empty : CacheState := ⟨[], [], [], []⟩

/-- `touch_asset` (image_io.rs lines 57-64): drop the id's old queue position and
push it to the back. -/
def touch_asset (asset_id : String) (st : CacheState) : CacheState :=
  { st with lru := st.lru.erase asset_id ++ [asset_id] }

/-- `evict_if_needed` (image_io.rs lines 66-82).  The `while` loop pops ids from the
front of the LRU queue until at most `PREVIEW_CACHE_ASSETS` remain, so the popped
ids are exactly the first `len - capacity` entries; each of them then loses its
master and every variant whose key starts with `id ++ ":"`. -/
def evict_if_needed (st : CacheState) : CacheState :=
  let k := st.lru.length - PREVIEW_CACHE_ASSETS
  let evicted := st.lru.take k
  { st with
    lru := st.lru.drop k
    masters := evicted.foldl (fun m id => aremove id m) st.masters
    variants := evicted.foldl
      (fun v id => v.filter (fun p => !(strStarts (id ++ ":") p.1))) st.variants }

/-- `drop_variants_for` (image_io.rs lines 84-87). -/
def drop_variants_for (asset_id : String) (st : CacheState) : CacheState :=
  { st with
    variants := st.variants.filter (fun p => !(strStarts (asset_id ++ ":") p.1)) }

/-- `store_master` (image_io.rs lines 105-116): insert the new master, purge the
asset's variants, refresh recency, evict. -/
def store_master (asset_id : String) (img : Img) (st : CacheState) :
    CachedPreview × CacheState :=
  let max_dim := max (max img.w img.h) 1
  let entry : CachedPreview := ⟨img, max_dim⟩
  let st := { st with masters := ainsert asset_id entry st.masters }
  let st := drop_variants_for asset_id st
  let st := touch_asset asset_id st
  let st := evict_if_needed st
  (entry, st)

/-- The decode-and-store path of `master_preview` (image_io.rs lines 131-133),
reached on a cache miss; logs the decode envelope it requests. -/
def master_preview_decode (ctx : Ctx) (asset_id path : String) (target : Nat)
    (st : CacheState) : Except String CachedPreview × CacheState :=
  let decode_target := min (max target PREVIEW_MASTER_BASE) PREVIEW_MAX_DIM
  let st := { st with decodeLog := st.decodeLog ++ [decode_target] }
  match render_resized ctx path decode_target with
  | .error e => (.error e, st)
  | .ok decoded =>
    let es := store_master asset_id decoded st
    (.ok es.1, es.2)

/-- `master_preview` (image_io.rs lines 118-134): serve a resident master whose
`max_dim` covers the clamped request, else decode at the envelope and store. -/
def master_preview (ctx : Ctx) (asset_id path : String) (requested_dim : Nat)
    (st : CacheState) : Except String CachedPreview × CacheState :=
  let target := normalize_dimension requested_dim
  match alookup asset_id st.masters with
  | some hit =>
    if target ≤ hit.max_dim then (.ok hit, touch_asset asset_id st)
    else master_preview_decode ctx asset_id path target st
  | none => master_preview_decode ctx asset_id path target st

/-- `scaled_preview` (image_io.rs lines 136-157): resolve the master, short-circuit
within 4 px of its size, else serve or create the exact-dimension variant. -/
def scaled_preview (ctx : Ctx) (asset_id path : String) (requested_dim : Nat)
    (st : CacheState) : Except String Img × CacheState :=
  let target := normalize_dimension requested_dim
  match master_preview ctx asset_id path target st with
  | (.error e, st) => (.error e, st)
  | (.ok master, st) =>
    if master.max_dim - 4 ≤ target then (.ok master.buf, st)
    else
      let key := cache_key asset_id target
      match alookup key st.variants with
      | some existing => (.ok existing, touch_asset asset_id st)
      | none =>
        let resized := resize_rgba_preserve_aspect ctx master.buf target
        let st := { st with variants := ainsert key resized st.variants }
        let st := touch_asset asset_id st
        let st := evict_if_needed st
        (.ok resized, st)

/-- `clear_preview_cache` (image_io.rs lines 564-571). -/
def clear_preview_cache (st : CacheState) : CacheState :=
  { st with masters := [], variants := [], lru := [] }

/-- `render_preview_with_recipe` (image_io.rs lines 767-792): scaled preview, then
globals (GPU first, CPU fallback) unless the identity, then layers if any has an
effect, then PNG encoding. -/
def render_preview_with_recipe (ctx : Ctx) (asset_id path : String)
    (recipe : Option EditRecipe) (max_dimension : Option Nat) (st : CacheState) :
    Except String (List Nat) × CacheState :=
  let target := max_dimension.getD 1440
  match scaled_preview ctx asset_id path target st with
  | (.error e, st) => (.error e, st)
  | (.ok base, st) =>
    let working := base
    let working :=
      match recipe with
      | none => working
      | some r =>
        let working :=
          if !globals_are_identity r.globals then
            match ctx.gpuApplyGlobals working r.globals with
            | some gpu_img => gpu_img
            | none =>
              { working with data := apply_globals_in_place ctx.pow2 r.globals working.data }
          else working
        if layers_have_effect r.layers then
          { working with
            data := apply_layers_in_place ctx.pow2 working.w working.h r.layers working.data }
        else working
    (ctx.encodePng working, st)

/-- Substring containment (Rust `str::contains`, and the claims' "the message
contains"), as infix of the character data. -/
def containsSub (needle hay : String) : Prop := needle.data <:+: hay.data

instance (needle hay : String) : Decidable (containsSub needle hay) :=
  inferInstanceAs (Decidable (_ <:+: _))

/-- The camera-hint pattern `load_dynamic_image` greps the rawloader error for
(the apostrophe is spliced in as a character). -/
def cameraPat : String := "Couldn" ++ Char.toString '\'' ++ "t find camera"

/-- Outcomes of the external codec backends for one source file, feeding the
embedded `load_dynamic_image` control flow:
* `imageOpen` — `image::open(path)`;
* `readBytes` — `fs::read(path)`;
* `loadFromMemory` — `image::load_from_memory(bytes)`;
* `librawDecode` — `decode_with_libraw(bytes)`, its internal 16/8-bit message
  aggregation included in the error value;
* `rawloaderDecode` — `rawloader::decode_file(path)` composed with `raw_to_rgba`
  (which never fails), so the error value is `decode_file`'s;
* `dummyDecode` — `rawloader::decode_dummy` composed with `raw_to_rgba`; the error
  value is `decode_dummy`'s own message, exactly what the source's `map_err`
  receives. -/
structure DecodeEnv where
  imageOpen : Except String Img
  readBytes : Except String (List Nat)
  loadFromMemory : List Nat → Except String Img
  librawDecode : List Nat → Except String Img
  rawloaderDecode : Except String Img
  dummyDecode : List Nat → Except String Img

/-- `load_dynamic_image` (image_io.rs lines 278-318): the five-stage fallback chain
with its error aggregation. -/
def load_dynamic_image (env : DecodeEnv) : Except String Img :=
  match env.imageOpen with
  | .ok img => .ok img
  | .error primary =>
    match env.readBytes with
    | .error e => .error ("Failed to read image bytes: " ++ e)
    | .ok bytes =>
      match env.loadFromMemory bytes with
      | .ok img_mem => .ok img_mem
      | .error _mem_err =>
        match env.librawDecode bytes with
        | .ok img => .ok img
        | .error libraw_err =>
          match env.rawloaderDecode with
          | .ok raw => .ok raw
          | .error raw_err =>
            let hint :=
              if containsSub cameraPat raw_err then
                raw_err ++
                  ". Try converting to DNG (lossless) or using a supported camera profile."
              else raw_err
            let libraw_hint := "; LibRaw fallback: " ++ libraw_err
            match env.dummyDecode bytes with
            | .ok raw => .ok raw
            | .error e =>
              .error ("Failed to decode image: " ++ primary ++ libraw_hint ++
                "; raw decode: " ++ hint ++ "; dummy decode: " ++ e)

/-- `normalize_sample` (image_io.rs lines 320-325). -/
def normalize_sample (val black white : ℚ) : ℚ :=
  if white ≤ black then 0 else clamp01 ((val - black) / (white - black))

/-- The `match color` arms of the demosaic accumulation loops: CFA code 0 feeds the
R plane, 2 feeds B, and 1 or anything else feeds G. -/
def cfa_plane (c : Nat) : Nat := if c = 0 then 0 else if c = 2 then 2 else 1

/-- Whether the sensor sampled plane `color` at flat index `idx` (the `*_mask`
arrays of `raw_to_rgba`). -/
def plane_mask (color : Nat) (cfa : Nat → Nat → Nat) (w : Nat) (idx : Nat) : Bool :=
  decide (cfa_plane (cfa (idx / w) (idx % w)) = color)

/-- The plane array built by the accumulation loops of `raw_to_rgba` (image_io.rs
lines 389-463): the normalized sample where the CFA sampled this plane, the initial
`0.0` elsewhere. -/
def plane_chan (color : Nat) (cfa : Nat → Nat → Nat) (data : Nat → ℚ)
    (black white : ℚ) (w : Nat) (idx : Nat) : ℚ :=
  if plane_mask color cfa w idx then normalize_sample (data idx) black white else 0

/-- The 3-by-3 offset grid walked by the `neighbors` closure (image_io.rs lines
465-479): `dy` outer, `dx` inner, the pixel itself in the middle. -/
def offsets9 : List (Int × Int) :=
  [(-1, -1), (0, -1), (1, -1), (-1, 0), (0, 0), (1, 0), (-1, 1), (0, 1), (1, 1)]

/-- The bounds check of the `neighbors` closure for one offset. -/
def clip_offset (x y w h : Nat) (d : Int × Int) : Option (Nat × Nat) :=
  let nx := (x : Int) + d.1
  let ny := (y : Int) + d.2
  if 0 ≤ nx ∧ 0 ≤ ny ∧ nx < (w : Int) ∧ ny < (h : Int) then some (nx.toNat, ny.toNat)
  else none

/-- The `neighbors` closure (image_io.rs lines 465-479). -/
def neighbors (x y w h : Nat) : List (Nat × Nat) :=
  offsets9.filterMap (clip_offset x y w h)

/-- The eight strict neighbors the spec speaks of: the same grid without `(0, 0)`. -/
def offsets8 : List (Int × Int) :=
  [(-1, -1), (0, -1), (1, -1), (-1, 0), (1, 0), (-1, 1), (0, 1), (1, 1)]

/-- The spec-side strict neighborhood. -/
def neighbors8 (x y w h : Nat) : List (Nat × Nat) :=
  offsets8.filterMap (clip_offset x y w h)

/-- `fill_channel` (image_io.rs lines 481-507): the value of the filled plane at
`(x, y)`.  The closure copies the plane, then overwrites each unsampled pixel with
`sum / count` over the sampled members of its 3-by-3 neighborhood, reading from the
ORIGINAL plane, or keeps the original value when `count == 0`. -/
def fill_channel (w h : Nat) (chan : Nat → ℚ) (mask : Nat → Bool) (x y : Nat) : ℚ :=
  let idx := y * w + x
  if mask idx then chan idx
  else
    let ns := (neighbors x y w h).filter (fun p => mask (p.2 * w + p.1))
    if 0 < ns.length then (ns.map (fun p => chan (p.2 * w + p.1))).sum / (ns.length : ℚ)
    else chan idx

/-- `placeholder_image` (image_io.rs lines 529-540), one pixel of the 480x320
synthetic gradient; the f32-to-u8 casts truncate toward zero (`Rat.floor` here; all
channel values are positive and below 256). -/
def placeholder_pixel (x y : Nat) : Px :=
  let t : ℚ := (x : ℚ) / 480
  let b : ℚ := (y : ℚ) / 320
  ⟨(⌊(220 : ℚ) - 40 * b⌋).toNat, (⌊(230 : ℚ) - 60 * t⌋).toNat,
   (⌊(245 : ℚ) - 80 * (t * b)⌋).toNat, 255⟩

/-- `placeholder_image` composed with `to_rgba8` (`placeholder_rgba`), which is the
identity on an RGBA8 buffer. -/
def placeholder_image : Img :=
  ⟨480, 320,
   (List.range (480 * 320)).map (fun idx => placeholder_pixel (idx % 480) (idx / 480))⟩

/-- Filesystem collaborators of the thumbnail path: the externally resolved cache
directory, existence test, verbatim read, and write (directory creation included). -/
structure ThumbFs where
  thumbsDir : Except String String
  pathExists : String → Bool
  readFile : String → Except String (List Nat)
  writeFile : String → List Nat → Except String Unit

/-- `cached_path` (cache.rs): `dir.join(format!("{asset_id}.{suffix}"))`, the
platform join embedded as slash concatenation. -/
def cached_path (dir asset_id suffix : String) : String :=
  dir ++ "/" ++ asset_id ++ "." ++ suffix

/-- `write_png_to_path` (image_io.rs lines 546-553): encode, write, return the
encoded buffer. -/
def write_png_to_path (ctx : Ctx) (fs : ThumbFs) (img : Img) (path : String) :
    Except String (List Nat) :=
  match ctx.encodePng img with
  | .error e => .error e
  | .ok buffer =>
    match fs.writeFile path buffer with
    | .error e => .error e
    | .ok _ => .ok buffer

/-- `load_or_create_thumbnail` (image_io.rs lines 573-585). -/
def load_or_create_thumbnail (ctx : Ctx) (fs : ThumbFs) (asset_id path : String) :
    Except String (List Nat) :=
  match fs.thumbsDir with
  | .error e => .error e
  | .ok dir =>
    let thumb_path := cached_path dir asset_id "png"
    if fs.pathExists thumb_path then fs.readFile thumb_path
    else
      let img :=
        match render_resized ctx path 360 with
        | .ok i => i
        | .error _ => resize_rgba_preserve_aspect ctx placeholder_image 360
      write_png_to_path ctx fs img thumb_path

/-- Outcome of one run of `init_gpu_context` (gpu.rs lines 22-263): a context, an
ordinary error, or a panic unwinding out of the initializer. -/
inductive GpuInit (C : Type) where
  | ready : C → GpuInit C
  | failed : String → GpuInit C
  | panicked : GpuInit C
deriving DecidableEq, Repr

/-- The `catch_unwind` / `unwrap_or_else` wrapper inside `gpu_context` (gpu.rs lines
266-270): a panic is captured and becomes the permanent `Err` value. -/
def settle_init {C : Type} (o : GpuInit C) : Except String C :=
  match o with
  | .ready c => .ok c
  | .failed m => .error m
  | .panicked => .error "GPU context init panicked; GPU path disabled for this session"

/-- The `OnceCell` guarding `GPU_CONTEXT` (gpu.rs line 20), with a counter of how
many times the initializer closure has actually executed. -/
structure OnceCellState (C : Type) where
  value : Option (Except String C)
  initCount : Nat
deriving Repr

/-- `gpu_context` (gpu.rs lines 265-275): `get_or_init` runs the guarded
initializer only on an empty cell, stores the settled result forever, and each call
converts the stored `Result` to an `Option` by cloning on `Ok`. -/
def gpu_context {C : Type} (o : GpuInit C) (st : OnceCellState C) :
    Option C × OnceCellState C :=
  match st.value with
  | some r => (r.toOption, st)
  | none =>
    let r := settle_init o
    (r.toOption, ⟨some r, st.initCount + 1⟩)

end Openroom

namespace Openroom

/-- C1: the CPU global-adjustment function and the GPU color-grade fragment shader
compute the same per-pixel transformation.  For every pixel and every
`GlobalAdjustments` value, running the CPU per-pixel body equals normalizing the
pixel, running the `fs_globals` shader with the uniforms packed by
`apply_globals_rgba`, and re-quantizing: exposure multiply, white balance,
highlights/shadows masking, whites/blacks offsets, contrast around pivot 0.5 and
vibrance/saturation use the same constants in the same order on both paths. -/
theorem cpu_gpu_globals_agree (pow2 : ℚ → ℚ) (g : GlobalAdjustments) (p : Px) :
    apply_globals_pixel pow2 g p =
      px_of_texel (fs_globals (pack_globals pow2 g) (texel_of_px p)) := rfl

/-! ### Resizer dimension lemmas -/

lemma target_size_max_eq (w h md : Nat) (hw : 1 ≤ w) (hh : 1 ≤ h) (hmd : 1 ≤ md) :
    max (target_size w h md).1 (target_size w h md).2 = md := by
  unfold target_size
  have hz : ¬ (w = 0 ∨ h = 0) := by omega
  rw [if_neg hz]
  by_cases hle : h ≤ w
  · rw [if_pos hle]
    have h1 : md * h / w ≤ md :=
      Nat.div_le_of_le_mul (by
        calc md * h ≤ md * w := Nat.mul_le_mul_left md hle
          _ = w * md := Nat.mul_comm md w)
    show max md (max (md * h / w) 1) = md
    omega
  · rw [if_neg hle]
    have h1 : md * w / h ≤ md :=
      Nat.div_le_of_le_mul (by
        calc md * w ≤ md * h := Nat.mul_le_mul_left md (by omega)
          _ = h * md := Nat.mul_comm md h)
    show max (max (md * w / h) 1) md = md
    omega

lemma resize_rgba_dims (ctx : Ctx) (img : Img) (md : Nat) :
    (resize_rgba_preserve_aspect ctx img md).w =
        (target_size img.w img.h (max md 1)).1 ∧
      (resize_rgba_preserve_aspect ctx img md).h =
        (target_size img.w img.h (max md 1)).2 := by
  simp only [resize_rgba_preserve_aspect]
  by_cases hcond : (target_size img.w img.h (max md 1)).1 = img.w ∧
      (target_size img.w img.h (max md 1)).2 = img.h
  · rw [if_pos hcond]
    exact ⟨hcond.1.symm, hcond.2.symm⟩
  · rw [if_neg hcond]
    cases hg : (if ctx.gpuAvailable = true then
        ctx.gpuResize img (target_size img.w img.h (max md 1)).1
          (target_size img.w img.h (max md 1)).2
      else none) with
    | none => simp [hg]
    | some out => simp [hg]

lemma resize_rgba_max_dim (ctx : Ctx) (img : Img) (md : Nat) (hw : 1 ≤ img.w)
    (hh : 1 ≤ img.h) :
    max (resize_rgba_preserve_aspect ctx img md).w
      (resize_rgba_preserve_aspect ctx img md).h = max md 1 := by
  obtain ⟨h1, h2⟩ := resize_rgba_dims ctx img md
  rw [h1, h2]
  exact target_size_max_eq img.w img.h (max md 1) hw hh (by omega)

lemma render_resized_ok_eq (ctx : Ctx) (path : String) (md : Nat) (img : Img)
    (hdec : ctx.decode path = .ok img) :
    render_resized ctx path md =
      .ok (resize_rgba_preserve_aspect ctx img
        (min (max md 1) (max (max img.w img.h) 1))) := by
  unfold render_resized
  rw [hdec]

/-- C10: decoding for the preview cache never upscales the source.  For every path
and requested maximum dimension `d ≥ 1`, the buffer produced by `render_resized`
has larger side `min d (larger source side)`, so a stored master's `max_dim` can be
strictly smaller than the requested decode envelope (even below the 480 band floor)
when the source image is small. -/
theorem render_resized_never_upscales (ctx : Ctx) (path : String) (d : Nat)
    (img : Img) (hd : 1 ≤ d) (hdec : ctx.decode path = .ok img) (hw : 1 ≤ img.w)
    (hh : 1 ≤ img.h) :
    ∃ out, render_resized ctx path d = .ok out ∧
      max out.w out.h = min d (max img.w img.h) := by
  refine ⟨_, render_resized_ok_eq ctx path d img hdec, ?_⟩
  rw [resize_rgba_max_dim ctx img _ hw hh]
  omega

/-- A context whose decode yields a small 100-by-50 source; the external resample
kernels and encoder are inert stubs of the right shape. -/
def ctxTiny : Ctx :=
  ⟨fun _ => .ok ⟨100, 50, []⟩, false, fun _ _ _ => none, fun _ _ _ => [],
   fun _ _ => none, fun _ => 1, fun _ => .ok []⟩

theorem render_resized_never_upscales_witness :
    ∃ out, render_resized ctxTiny "p" 800 = .ok out ∧
      max out.w out.h = min 800 (max 100 50) :=
  render_resized_never_upscales ctxTiny "p" 800 ⟨100, 50, []⟩ (by decide) rfl
    (by decide) (by decide)

/-! ### C2: the identity recipe is a no-op -/

/-- C2: rendering a preview with a recipe whose global sliders are all exactly zero
and whose layer list is empty produces output (bytes and cache state) identical to
rendering with no recipe at all, for every environment, cache state, asset and
requested dimension. -/
theorem identity_recipe_noop (ctx : Ctx) (st : CacheState) (asset_id path : String)
    (max_dimension : Option Nat) (r : EditRecipe)
    (hg : r.globals = GlobalAdjustments.zero) (hl : r.layers = []) :
    render_preview_with_recipe ctx asset_id path (some r) max_dimension st =
      render_preview_with_recipe ctx asset_id path none max_dimension st := by
  have hG : globals_are_identity r.globals = true := by
    rw [hg]
    simp [globals_are_identity, GlobalAdjustments.zero]
  have hL : layers_have_effect r.layers = false := by rw [hl]; rfl
  simp only [render_preview_with_recipe]
  cases hsp : scaled_preview ctx asset_id path (max_dimension.getD 1440) st with
  | mk res st2 =>
    cases res with
    | error e => rfl
    | ok base => simp [hG, hL]

theorem identity_recipe_noop_witness :
    render_preview_with_recipe ctxTiny "a" "p"
        (some ⟨1, GlobalAdjustments.zero, []⟩) none CacheState.empty =
      render_preview_with_recipe ctxTiny "a" "p" none none CacheState.empty :=
  identity_recipe_noop ctxTiny CacheState.empty "a" "p" none
    ⟨1, GlobalAdjustments.zero, []⟩ rfl rfl

/-! ### C9: one-shot GPU initialization -/

/-- C9: GPU context initialization runs at most once per process.  Starting from the
empty cell, the first query settles the initializer's outcome (a panic being
captured as the permanent `Err`) and stores it with exactly one initializer run;
every later query — whatever its initializer closure would do — returns the same
stored result and leaves the state (run count included) untouched; and once the
stored result is an error, every later query reports the GPU as unavailable. -/
theorem gpu_context_once (C : Type) (o : GpuInit C) :
    ((gpu_context o ⟨none, 0⟩).2.value = some (settle_init o) ∧
      (gpu_context o ⟨none, 0⟩).2.initCount = 1) ∧
    (∀ o2 : GpuInit C,
      gpu_context o2 (gpu_context o ⟨none, 0⟩).2 =
        ((settle_init o).toOption, (gpu_context o ⟨none, 0⟩).2)) ∧
    (∀ m, settle_init o = .error m →
      ∀ o2 : GpuInit C, (gpu_context o2 (gpu_context o ⟨none, 0⟩).2).1 = none) := by
  refine ⟨⟨rfl, rfl⟩, fun o2 => rfl, fun m hm o2 => ?_⟩
  simp [gpu_context, hm, Except.toOption]

theorem gpu_context_once_witness :
    (gpu_context (GpuInit.ready ())
      (gpu_context (GpuInit.panicked : GpuInit Unit) ⟨none, 0⟩).2).1 = none :=
  (gpu_context_once Unit GpuInit.panicked).2.2
    "GPU context init panicked; GPU path disabled for this session" rfl
    (GpuInit.ready ())

/-! ### Association-list and LRU toolkit for the cache proofs -/

lemma alookup_filter_ne {α : Type} (a k : String) (m : List (String × α)) (h : a ≠ k) :
    alookup a (m.filter (fun p => p.1 != k)) = alookup a m := by
  induction m with
  | nil => rfl
  | cons hd tl ih =>
    obtain ⟨k2, v⟩ := hd
    rw [List.filter_cons]
    split_ifs with hb
    · simp only [alookup]
      by_cases hka : k2 = a
      · rw [if_pos hka, if_pos hka]
      · rw [if_neg hka, if_neg hka, ih]
    · have h2 : k2 = k := by simpa using hb
      subst h2
      rw [ih]
      simp only [alookup]
      rw [if_neg (fun he => h he.symm)]

lemma alookup_ainsert_self {α : Type} (k : String) (v : α) (m : List (String × α)) :
    alookup k (ainsert k v m) = some v := by
  simp [ainsert, alookup]

lemma alookup_ainsert_ne {α : Type} (a k : String) (v : α) (m : List (String × α))
    (h : a ≠ k) : alookup a (ainsert k v m) = alookup a m := by
  unfold ainsert
  rw [alookup, if_neg (fun he => h he.symm), alookup_filter_ne a k m h]

lemma alookup_aremove_ne {α : Type} (a k : String) (m : List (String × α)) (h : a ≠ k) :
    alookup a (aremove k m) = alookup a m :=
  alookup_filter_ne a k m h

lemma alookup_foldl_aremove {α : Type} (ids : List String) (m : List (String × α))
    (a : String) (h : a ∉ ids) :
    alookup a (ids.foldl (fun acc id => aremove id acc) m) = alookup a m := by
  induction ids generalizing m with
  | nil => rfl
  | cons hd tl ih =>
    rw [List.foldl_cons, ih (aremove hd m) (fun hm => h (List.mem_cons_of_mem hd hm)),
      alookup_aremove_ne a hd m (fun he => h (by rw [he]; exact List.mem_cons_self hd tl))]

lemma mem_foldl_filter_variants (ids : List String) (v : List (String × Img))
    (p : String × Img) :
    (p ∈ ids.foldl (fun acc id => acc.filter (fun q => !(strStarts (id ++ ":") q.1))) v ↔
      p ∈ v ∧ ∀ id ∈ ids, strStarts (id ++ ":") p.1 = false) := by
  induction ids generalizing v with
  | nil => simp
  | cons hd tl ih =>
    rw [List.foldl_cons, ih]
    simp only [List.mem_filter, Bool.not_eq_eq_eq_not, Bool.not_true, List.mem_cons]
    constructor
    · rintro ⟨⟨hpv, hhd⟩, htl⟩
      exact ⟨hpv, fun id hid => by
        rcases hid with hid | hid
        · rw [hid]; exact hhd
        · exact htl id hid⟩
    · rintro ⟨hpv, hall⟩
      exact ⟨⟨hpv, hall hd (Or.inl rfl)⟩, fun id hid => hall id (Or.inr hid)⟩

lemma strStarts_cache_key (a : String) (d : Nat) :
    strStarts (a ++ ":") (cache_key a d) = true := by
  unfold strStarts cache_key
  rw [List.isPrefixOf_iff_prefix, String.data_append]
  exact List.prefix_append _ _

lemma touch_lru_nodup (l : List String) (id : String) (h : l.Nodup) :
    (l.erase id ++ [id]).Nodup := by
  rw [List.nodup_append]
  refine ⟨h.erase id, List.nodup_singleton id, ?_⟩
  intro x hx hx2
  rw [List.mem_singleton] at hx2
  subst hx2
  exact h.not_mem_erase hx

/-- Every cached variant belongs to a resident master: its key is `cache_key a d`
for some asset `a` whose master is currently stored.  This is the "no variant
outlives its master" invariant. -/
def VariantsCovered (st : CacheState) : Prop :=
  ∀ p ∈ st.variants, ∃ a d, p.1 = cache_key a d ∧ (alookup a st.masters).isSome = true

lemma touch_covered (id : String) (st : CacheState) (h : VariantsCovered st) :
    VariantsCovered (touch_asset id st) := h

lemma touch_nodup (id : String) (st : CacheState) (h : st.lru.Nodup) :
    (touch_asset id st).lru.Nodup := touch_lru_nodup st.lru id h

lemma evict_nodup (st : CacheState) (h : st.lru.Nodup) :
    (evict_if_needed st).lru.Nodup :=
  (List.drop_sublist _ _).nodup h

lemma evict_covered (st : CacheState) (hC : VariantsCovered st) :
    VariantsCovered (evict_if_needed st) := by
  intro p hp
  rw [show (evict_if_needed st).variants =
      (st.lru.take (st.lru.length - PREVIEW_CACHE_ASSETS)).foldl
        (fun v id => v.filter (fun q => !(strStarts (id ++ ":") q.1))) st.variants
    from rfl, mem_foldl_filter_variants] at hp
  obtain ⟨hpv, hall⟩ := hp
  obtain ⟨a, d, hk, hsome⟩ := hC p hpv
  refine ⟨a, d, hk, ?_⟩
  by_cases ha : a ∈ st.lru.take (st.lru.length - PREVIEW_CACHE_ASSETS)
  · exfalso
    have hfalse := hall a ha
    rw [hk, strStarts_cache_key] at hfalse
    simp at hfalse
  · rw [show (evict_if_needed st).masters =
        (st.lru.take (st.lru.length - PREVIEW_CACHE_ASSETS)).foldl
          (fun m id => aremove id m) st.masters from rfl,
      alookup_foldl_aremove _ _ _ ha]
    exact hsome

lemma drop_variants_covered (id : String) (st : CacheState) (h : VariantsCovered st) :
    VariantsCovered (drop_variants_for id st) := by
  intro p hp
  exact h p (List.mem_filter.mp hp).1

lemma covered_ainsert_master (st : CacheState) (id : String) (e : CachedPreview)
    (h : VariantsCovered st) :
    VariantsCovered { st with masters := ainsert id e st.masters } := by
  intro p hp
  obtain ⟨a, d, hk, hsome⟩ := h p hp
  refine ⟨a, d, hk, ?_⟩
  by_cases ha : a = id
  · subst ha
    rw [show ({ st with masters := ainsert a e st.masters } : CacheState).masters =
      ainsert a e st.masters from rfl, alookup_ainsert_self]
    rfl
  · rw [show ({ st with masters := ainsert id e st.masters } : CacheState).masters =
      ainsert id e st.masters from rfl, alookup_ainsert_ne a id e st.masters ha]
    exact hsome

lemma covered_ainsert_variant (st : CacheState) (id : String) (t : Nat) (r : Img)
    (hm : (alookup id st.masters).isSome = true) (h : VariantsCovered st) :
    VariantsCovered { st with variants := ainsert (cache_key id t) r st.variants } := by
  intro p hp
  rcases List.mem_cons.mp hp with hEq | hTl
  · exact ⟨id, t, by rw [hEq], hm⟩
  · exact h p (List.mem_filter.mp hTl).1

/-! ### C5: master envelope -/

/-- The dimension `master_preview` decodes at on a miss:
`max(clamp(requestedDim), BASE=1920)` clamped to the band ceiling. -/
def decode_envelope (requested_dim : Nat) : Nat :=
  min (max (normalize_dimension requested_dim) PREVIEW_MASTER_BASE) PREVIEW_MAX_DIM

lemma master_preview_decode_envelope (ctx : Ctx) (asset_id path : String) (dim : Nat)
    (st : CacheState) (img : Img) (hdec : ctx.decode path = .ok img)
    (hw : 1 ≤ img.w) (hh : 1 ≤ img.h) :
    ∃ entry st2,
      master_preview_decode ctx asset_id path (normalize_dimension dim) st =
        (.ok entry, st2) ∧
      entry.max_dim = min (decode_envelope dim) (max img.w img.h) ∧
      st2.decodeLog = st.decodeLog ++ [decode_envelope dim] := by
  have henv : 1920 ≤ decode_envelope dim ∧ decode_envelope dim ≤ 3200 := by
    unfold decode_envelope normalize_dimension PREVIEW_MASTER_BASE PREVIEW_MAX_DIM
      PREVIEW_MIN_DIM
    omega
  simp only [master_preview_decode]
  rw [render_resized_ok_eq ctx path _ img hdec]
  refine ⟨_, _, rfl, ?_, rfl⟩
  show max (max (resize_rgba_preserve_aspect ctx img
      (min (max (decode_envelope dim) 1) (max (max img.w img.h) 1))).w
    (resize_rgba_preserve_aspect ctx img
      (min (max (decode_envelope dim) 1) (max (max img.w img.h) 1))).h) 1 =
    min (decode_envelope dim) (max img.w img.h)
  rw [resize_rgba_max_dim ctx img _ hw hh]
  omega

/-- C5 (amended): every master stored on a cache miss — whether no master is
resident for the asset or the resident master's `max_dim` falls short of the
clamped request and is replaced — has
`max_dim = min (decode_envelope, larger source side)`, the envelope itself only
when the source is at least that large; and any request whose clamped dimension is
at most a resident master's `max_dim` is answered from that entry with no decode
(the recency touch leaves the decode log untouched). -/
theorem master_envelope_amended :
    (∀ (ctx : Ctx) (asset_id path : String) (dim : Nat) (st : CacheState) (img : Img),
      ctx.decode path = .ok img → 1 ≤ img.w → 1 ≤ img.h →
      (∀ hit, alookup asset_id st.masters = some hit →
        hit.max_dim < normalize_dimension dim) →
      ∃ entry st2, master_preview ctx asset_id path dim st = (.ok entry, st2) ∧
        entry.max_dim = min (decode_envelope dim) (max img.w img.h) ∧
        st2.decodeLog = st.decodeLog ++ [decode_envelope dim]) ∧
    (∀ (ctx : Ctx) (asset_id path : String) (dim : Nat) (st : CacheState)
      (hit : CachedPreview),
      alookup asset_id st.masters = some hit → normalize_dimension dim ≤ hit.max_dim →
      master_preview ctx asset_id path dim st = (.ok hit, touch_asset asset_id st) ∧
        (touch_asset asset_id st).decodeLog = st.decodeLog) := by
  constructor
  · intro ctx asset_id path dim st img hdec hw hh hmiss
    obtain ⟨entry, st2, heq, hshape, hlog⟩ :=
      master_preview_decode_envelope ctx asset_id path dim st img hdec hw hh
    refine ⟨entry, st2, ?_, hshape, hlog⟩
    cases hma : alookup asset_id st.masters with
    | none =>
      simp only [master_preview, hma]
      exact heq
    | some hit =>
      have hlt := hmiss hit hma
      simp only [master_preview, hma]
      rw [if_neg (show ¬ (normalize_dimension dim ≤ hit.max_dim) from by omega)]
      exact heq
  · intro ctx asset_id path dim st hit hsome hle
    constructor
    · simp only [master_preview, hsome]
      rw [if_pos hle]
    · rfl

/-- A context whose decode yields a 100-by-100 source. -/
def ctxTiny100 : Ctx :=
  ⟨fun _ => .ok ⟨100, 100, []⟩, false, fun _ _ _ => none, fun _ _ _ => [],
   fun _ _ => none, fun _ => 1, fun _ => .ok []⟩

/-- C5 counterexample: requesting dimension 800 for a 100-by-100 source decodes at
envelope 1920 but stores a master whose `max_dim` is 100, not the envelope. -/
theorem master_envelope_counterexample :
    ∃ entry, (master_preview ctxTiny100 "a" "p" 800 CacheState.empty).1 = .ok entry ∧
      decode_envelope 800 = 1920 ∧ entry.max_dim = 100 ∧
      entry.max_dim ≠ decode_envelope 800 :=
  ⟨⟨⟨100, 100, []⟩, 100⟩, rfl, by decide, by decide, by decide⟩

theorem master_envelope_amended_witness :
    ∃ entry st2,
      master_preview ctxTiny100 "a" "p" 800
          (⟨[("a", ⟨⟨100, 100, []⟩, 100⟩)], [], ["a"], []⟩ : CacheState) =
        (.ok entry, st2) ∧
        entry.max_dim = min (decode_envelope 800) (max 100 100) ∧
        st2.decodeLog =
          (⟨[("a", ⟨⟨100, 100, []⟩, 100⟩)], [], ["a"], []⟩ : CacheState).decodeLog ++
            [decode_envelope 800] :=
  master_envelope_amended.1 ctxTiny100 "a" "p" 800
    ⟨[("a", ⟨⟨100, 100, []⟩, 100⟩)], [], ["a"], []⟩ ⟨100, 100, []⟩
    rfl (by decide) (by decide)
    (fun hit h => by
      have h2 : some (⟨⟨100, 100, []⟩, 100⟩ : CachedPreview) = some hit := h
      rw [← Option.some.inj h2]
      decide)

/-! ### C7: demosaic neighborhood fill -/

lemma clip_offset_center (x y w h : Nat) (hx : x < w) (hy : y < h) :
    clip_offset x y w h (0, 0) = some (x, y) := by
  unfold clip_offset
  rw [if_pos]
  · simp
  · refine ⟨by omega, by omega, ?_, ?_⟩ <;> push_cast <;> omega

lemma neighbors_filter_eq (w h x y : Nat) (mask : Nat → Bool) (hx : x < w) (hy : y < h)
    (hm : mask (y * w + x) = false) :
    (neighbors x y w h).filter (fun p => mask (p.2 * w + p.1)) =
      (neighbors8 x y w h).filter (fun p => mask (p.2 * w + p.1)) := by
  have h9 : offsets9 =
      (offsets8.take 4 ++ [((0 : Int), (0 : Int))]) ++ offsets8.drop 4 := rfl
  have h8 : offsets8 = offsets8.take 4 ++ offsets8.drop 4 :=
    (List.take_append_drop 4 offsets8).symm
  unfold neighbors neighbors8
  rw [h9]
  conv_rhs => rw [h8]
  simp only [List.filterMap_append, List.filter_append]
  rw [show List.filterMap (clip_offset x y w h) [((0 : Int), (0 : Int))] = [(x, y)] from by
    simp only [List.filterMap]
    rw [clip_offset_center x y w h hx hy]]
  simp [List.filter, hm]

/-- C7: in the demosaic fill step, for every pixel unsampled in a color plane the
filled value is the arithmetic mean of the normalized values of those of its
up-to-8 immediate neighbors that are sampled in that plane; with no sampled
neighbor the pixel keeps its original (pre-fill) plane value; and sampled pixels
are left unchanged. -/
theorem demosaic_fill_mean (w h : Nat) (cfa : Nat → Nat → Nat) (data : Nat → ℚ)
    (black white : ℚ) (color x y : Nat) (hx : x < w) (hy : y < h) :
    (plane_mask color cfa w (y * w + x) = true →
      fill_channel w h (plane_chan color cfa data black white w)
          (plane_mask color cfa w) x y =
        plane_chan color cfa data black white w (y * w + x)) ∧
    (plane_mask color cfa w (y * w + x) = false →
      0 < ((neighbors8 x y w h).filter
          (fun p => plane_mask color cfa w (p.2 * w + p.1))).length →
      fill_channel w h (plane_chan color cfa data black white w)
          (plane_mask color cfa w) x y =
        (((neighbors8 x y w h).filter
            (fun p => plane_mask color cfa w (p.2 * w + p.1))).map
          (fun p => normalize_sample (data (p.2 * w + p.1)) black white)).sum /
          ((((neighbors8 x y w h).filter
            (fun p => plane_mask color cfa w (p.2 * w + p.1))).length : ℚ))) ∧
    (plane_mask color cfa w (y * w + x) = false →
      ((neighbors8 x y w h).filter
          (fun p => plane_mask color cfa w (p.2 * w + p.1))).length = 0 →
      fill_channel w h (plane_chan color cfa data black white w)
          (plane_mask color cfa w) x y =
        plane_chan color cfa data black white w (y * w + x)) := by
  refine ⟨fun hm => ?_, fun hm hs => ?_, fun hm hs => ?_⟩
  · simp only [fill_channel]
    rw [if_pos hm]
  · simp only [fill_channel]
    rw [if_neg (by rw [hm]; exact Bool.false_ne_true),
      neighbors_filter_eq w h x y _ hx hy hm, if_pos hs]
    congr 1
    refine congrArg List.sum (List.map_congr_left ?_)
    intro p hp
    have hmp : plane_mask color cfa w (p.2 * w + p.1) = true :=
      (List.mem_filter.mp hp).2
    simp [plane_chan, hmp]
  · simp only [fill_channel]
    rw [if_neg (by rw [hm]; exact Bool.false_ne_true),
      neighbors_filter_eq w h x y _ hx hy hm, if_neg (by omega)]

/-- An RGGB Bayer pattern on a 2-by-2 tile. -/
def rggbCfa : Nat → Nat → Nat :=
  fun y x => if y % 2 = 0 then (if x % 2 = 0 then 0 else 1)
    else (if x % 2 = 0 then 1 else 2)

theorem demosaic_fill_mean_witness :
    (0 : Nat) < 2 ∧ plane_mask 0 rggbCfa 2 (0 * 2 + 0) = true ∧
      fill_channel 2 2 (plane_chan 0 rggbCfa (fun idx => (idx : ℚ)) 0 255 2)
          (plane_mask 0 rggbCfa 2) 0 0 =
        plane_chan 0 rggbCfa (fun idx => (idx : ℚ)) 0 255 2 (0 * 2 + 0) :=
  ⟨by decide, by decide,
    (demosaic_fill_mean 2 2 rggbCfa (fun idx => (idx : ℚ)) 0 255 0 0 0 (by decide)
      (by decide)).1 (by decide)⟩

/-! ### C6: decode error aggregation -/

lemma containsSub_self (a : String) : containsSub a a := List.infix_rfl

lemma containsSub_append_left (x : String) {a y : String} (h : containsSub a y) :
    containsSub a (x ++ y) := by
  unfold containsSub at h ⊢
  rw [String.data_append]
  exact h.trans (List.suffix_append x.data y.data).isInfix

lemma containsSub_append_right (x : String) {a y : String} (h : containsSub a y) :
    containsSub a (y ++ x) := by
  unfold containsSub at h ⊢
  rw [String.data_append]
  exact h.trans (List.prefix_append y.data x.data).isInfix

/-- C6 (amended): when every decode backend fails, `load_dynamic_image` returns one
aggregated `DecodeError` whose message contains the failure reasons of the general
codec, the RAW library, the minimal RAW parser and the dummy decode — but NOT the
in-memory sniffing backend, whose reason the source discards. -/
theorem decode_error_aggregates (env : DecodeEnv)
    (primary mem_err libraw_err raw_err dummy_err : String) (bytes : List Nat)
    (h1 : env.imageOpen = .error primary) (h2 : env.readBytes = .ok bytes)
    (h3 : env.loadFromMemory bytes = .error mem_err)
    (h4 : env.librawDecode bytes = .error libraw_err)
    (h5 : env.rawloaderDecode = .error raw_err)
    (h6 : env.dummyDecode bytes = .error dummy_err) :
    ∃ msg, load_dynamic_image env = .error msg ∧ containsSub primary msg ∧
      containsSub libraw_err msg ∧ containsSub raw_err msg ∧
      containsSub dummy_err msg := by
  simp only [load_dynamic_image, h1, h2, h3, h4, h5, h6]
  by_cases hc : containsSub cameraPat raw_err
  · rw [if_pos hc]
    refine ⟨_, rfl, ?_, ?_, ?_, ?_⟩
    · exact containsSub_append_right _ (containsSub_append_right _
        (containsSub_append_right _ (containsSub_append_right _
          (containsSub_append_right _
            (containsSub_append_left _ (containsSub_self primary))))))
    · exact containsSub_append_right _ (containsSub_append_right _
        (containsSub_append_right _ (containsSub_append_right _
          (containsSub_append_left _
            (containsSub_append_left _ (containsSub_self libraw_err))))))
    · exact containsSub_append_right _ (containsSub_append_right _
        (containsSub_append_left _
          (containsSub_append_right _ (containsSub_self raw_err))))
    · exact containsSub_append_left _ (containsSub_self dummy_err)
  · rw [if_neg hc]
    refine ⟨_, rfl, ?_, ?_, ?_, ?_⟩
    · exact containsSub_append_right _ (containsSub_append_right _
        (containsSub_append_right _ (containsSub_append_right _
          (containsSub_append_right _
            (containsSub_append_left _ (containsSub_self primary))))))
    · exact containsSub_append_right _ (containsSub_append_right _
        (containsSub_append_right _ (containsSub_append_right _
          (containsSub_append_left _
            (containsSub_append_left _ (containsSub_self libraw_err))))))
    · exact containsSub_append_right _ (containsSub_append_right _
        (containsSub_append_left _ (containsSub_self raw_err)))
    · exact containsSub_append_left _ (containsSub_self dummy_err)

/-- A source on which all five backends fail, the in-memory sniffer with a unique
marker reason. -/
def decodeEnvAllFail : DecodeEnv :=
  ⟨.error "primary-fail", .ok [1], fun _ => .error "MEMSNIFF-REASON",
   fun _ => .error "libraw-fail", .error "rawloader-fail", fun _ => .error "dummy-fail"⟩

set_option maxRecDepth 8192 in
/-- C6 counterexample: the aggregated message does not contain the in-memory
sniffing backend's failure reason, so the claim that every attempted backend's
reason appears is false. -/
theorem decode_error_counterexample :
    ∃ msg, load_dynamic_image decodeEnvAllFail = .error msg ∧
      ¬ containsSub "MEMSNIFF-REASON" msg := by
  refine ⟨"Failed to decode image: primary-fail; LibRaw fallback: libraw-fail; raw decode: rawloader-fail; dummy decode: dummy-fail", ?_, ?_⟩
  · rfl
  · decide

theorem decode_error_aggregates_witness :
    ∃ msg, load_dynamic_image decodeEnvAllFail = .error msg ∧
      containsSub "primary-fail" msg ∧ containsSub "libraw-fail" msg ∧
      containsSub "rawloader-fail" msg ∧ containsSub "dummy-fail" msg :=
  decode_error_aggregates decodeEnvAllFail "primary-fail" "MEMSNIFF-REASON"
    "libraw-fail" "rawloader-fail" "dummy-fail" [1] rfl rfl rfl rfl rfl rfl

/-! ### C8: thumbnail placeholder on decode failure -/

/-- C8 (amended): a decode failure never propagates out of
`load_or_create_thumbnail` — the placeholder gradient is resized to the thumbnail
dimension, encoded and returned as bytes — provided the cache-directory
resolution, the PNG encode and the disk write themselves succeed.  (Failures of
those I/O steps, unlike decode failures, still surface as errors.) -/
theorem thumbnail_placeholder_on_decode_failure (ctx : Ctx) (fs : ThumbFs)
    (asset_id path dir e : String) (buf : List Nat)
    (hdir : fs.thumbsDir = .ok dir)
    (hex : fs.pathExists (cached_path dir asset_id "png") = false)
    (hdec : render_resized ctx path 360 = .error e)
    (henc : ctx.encodePng (resize_rgba_preserve_aspect ctx placeholder_image 360) =
      .ok buf)
    (hwr : fs.writeFile (cached_path dir asset_id "png") buf = .ok ()) :
    load_or_create_thumbnail ctx fs asset_id path = .ok buf := by
  simp only [load_or_create_thumbnail, hdir, hex, hdec, Bool.false_eq_true,
    if_false, write_png_to_path, henc, hwr]

/-- A context whose decode always fails and whose encoder returns the fixed buffer
`[7]`. -/
def ctxNoDecode : Ctx :=
  ⟨fun _ => .error "no decode", false, fun _ _ _ => none, fun _ _ _ => [],
   fun _ _ => none, fun _ => 1, fun _ => .ok [7]⟩

/-- A filesystem with a resolvable thumbnail directory, no cached file, and a
working write. -/
def thumbFsOk : ThumbFs :=
  ⟨.ok "cache", fun _ => false, fun _ => .error "unused", fun _ _ => .ok ()⟩

theorem thumbnail_placeholder_witness :
    load_or_create_thumbnail ctxNoDecode thumbFsOk "a" "p" = .ok [7] :=
  thumbnail_placeholder_on_decode_failure ctxNoDecode thumbFsOk "a" "p" "cache"
    "no decode" [7] rfl rfl rfl rfl rfl

/-- A filesystem whose write fails (for instance a full disk). -/
def thumbFsBadWrite : ThumbFs :=
  ⟨.ok "cache", fun _ => false, fun _ => .error "unused", fun _ _ => .error "disk full"⟩

/-- C8 counterexample: with a failing decode AND a failing disk write, thumbnail
generation returns an error to the caller, so the operation does not always yield
a byte buffer. -/
theorem thumbnail_error_counterexample :
    load_or_create_thumbnail ctxNoDecode thumbFsBadWrite "a" "p" =
      .error "disk full" := rfl

/-! ### C4: LRU eviction and the variant/master invariant -/

lemma alookup_evict_of_not_evicted (st : CacheState) (a : String)
    (h : a ∉ st.lru.take (st.lru.length - PREVIEW_CACHE_ASSETS)) :
    alookup a (evict_if_needed st).masters = alookup a st.masters :=
  alookup_foldl_aremove _ _ _ h

lemma store_master_wf (id : String) (img : Img) (st : CacheState)
    (hN : st.lru.Nodup) (hC : VariantsCovered st) :
    (store_master id img st).2.lru.Nodup ∧
      VariantsCovered (store_master id img st).2 ∧
      (alookup id (store_master id img st).2.masters).isSome = true := by
  refine ⟨?_, ?_, ?_⟩
  · exact evict_nodup _ (touch_nodup id _ hN)
  · exact evict_covered _ (touch_covered id _ (drop_variants_covered id _
      (covered_ainsert_master st id _ hC)))
  · have hni : id ∉ st.lru.erase id := hN.not_mem_erase
    have hlen : (st.lru.erase id ++ [id]).length - PREVIEW_CACHE_ASSETS ≤
        (st.lru.erase id).length := by
      rw [List.length_append, List.length_singleton]
      unfold PREVIEW_CACHE_ASSETS
      omega
    have hmem : id ∉ (st.lru.erase id ++ [id]).take
        ((st.lru.erase id ++ [id]).length - PREVIEW_CACHE_ASSETS) := by
      rw [List.take_append_of_le_length hlen]
      intro hmem2
      exact hni (List.take_subset _ _ hmem2)
    have heq := alookup_evict_of_not_evicted (touch_asset id (drop_variants_for id
      { st with masters := ainsert id ⟨img, max (max img.w img.h) 1⟩ st.masters }))
      id hmem
    have hst : (store_master id img st).2 = evict_if_needed (touch_asset id
        (drop_variants_for id
          { st with masters := ainsert id ⟨img, max (max img.w img.h) 1⟩ st.masters })) :=
      rfl
    have hmm : (touch_asset id (drop_variants_for id
        { st with masters := ainsert id ⟨img, max (max img.w img.h) 1⟩ st.masters })).masters =
        ainsert id ⟨img, max (max img.w img.h) 1⟩ st.masters := rfl
    rw [hst, heq, hmm, alookup_ainsert_self]
    rfl

lemma master_preview_decode_wf (ctx : Ctx) (id path : String) (t : Nat)
    (st : CacheState) (hN : st.lru.Nodup) (hC : VariantsCovered st) :
    (master_preview_decode ctx id path t st).2.lru.Nodup ∧
      VariantsCovered (master_preview_decode ctx id path t st).2 ∧
      ∀ e, (master_preview_decode ctx id path t st).1 = .ok e →
        (alookup id (master_preview_decode ctx id path t st).2.masters).isSome =
          true := by
  cases hrr : render_resized ctx path (min (max t PREVIEW_MASTER_BASE) PREVIEW_MAX_DIM)
    with
  | error e =>
    simp only [master_preview_decode, hrr]
    exact ⟨hN, hC, fun e2 he => by cases he⟩
  | ok decoded =>
    simp only [master_preview_decode, hrr]
    have h := store_master_wf id decoded
      { st with decodeLog :=
          st.decodeLog ++ [min (max t PREVIEW_MASTER_BASE) PREVIEW_MAX_DIM] } hN hC
    exact ⟨h.1, h.2.1, fun e2 _ => h.2.2⟩

lemma master_preview_wf (ctx : Ctx) (id path : String) (dim : Nat) (st : CacheState)
    (hN : st.lru.Nodup) (hC : VariantsCovered st) :
    (master_preview ctx id path dim st).2.lru.Nodup ∧
      VariantsCovered (master_preview ctx id path dim st).2 ∧
      ∀ e, (master_preview ctx id path dim st).1 = .ok e →
        (alookup id (master_preview ctx id path dim st).2.masters).isSome = true := by
  cases hma : alookup id st.masters with
  | none =>
    simp only [master_preview, hma]
    exact master_preview_decode_wf ctx id path (normalize_dimension dim) st hN hC
  | some hit =>
    simp only [master_preview, hma]
    by_cases hle : normalize_dimension dim ≤ hit.max_dim
    · rw [if_pos hle]
      refine ⟨touch_nodup id st hN, touch_covered id st hC, fun e _ => ?_⟩
      rw [show (touch_asset id st).masters = st.masters from rfl, hma]
      rfl
    · rw [if_neg hle]
      exact master_preview_decode_wf ctx id path (normalize_dimension dim) st hN hC

lemma scaled_preview_wf (ctx : Ctx) (id path : String) (dim : Nat) (st : CacheState)
    (hN : st.lru.Nodup) (hC : VariantsCovered st) :
    (scaled_preview ctx id path dim st).2.lru.Nodup ∧
      VariantsCovered (scaled_preview ctx id path dim st).2 := by
  have hm := master_preview_wf ctx id path (normalize_dimension dim) st hN hC
  cases hmp : master_preview ctx id path (normalize_dimension dim) st with
  | mk r st2 =>
    simp only [hmp] at hm
    cases r with
    | error e =>
      simp only [scaled_preview, hmp]
      exact ⟨hm.1, hm.2.1⟩
    | ok master =>
      simp only [scaled_preview, hmp]
      by_cases hnear : master.max_dim - 4 ≤ normalize_dimension dim
      · rw [if_pos hnear]
        exact ⟨hm.1, hm.2.1⟩
      · rw [if_neg hnear]
        cases hv : alookup (cache_key id (normalize_dimension dim)) st2.variants with
        | some existing =>
          exact ⟨touch_nodup id st2 hm.1, touch_covered id st2 hm.2.1⟩
        | none =>
          have hsome := hm.2.2 master rfl
          exact ⟨evict_nodup _ (touch_nodup id _ hm.1),
            evict_covered _ (touch_covered id _
              (covered_ainsert_variant st2 id (normalize_dimension dim) _ hsome
                hm.2.1))⟩

/-- A context decoding a large 2000-by-1000 source, for the A/B/C scenario. -/
def ctxBig : Ctx :=
  ⟨fun _ => .ok ⟨2000, 1000, []⟩, false, fun _ _ _ => none, fun _ _ _ => [],
   fun _ _ => none, fun _ => 1, fun _ => .ok []⟩

/-- The cache after requesting previews for assets A, B, C (in that order) at
dimension 800 from a fresh cache. -/
def stABC : CacheState :=
  (scaled_preview ctxBig "C" "p" 800
    (scaled_preview ctxBig "B" "p" 800
      (scaled_preview ctxBig "A" "p" 800 CacheState.empty).2).2).2

/-- C4: with capacity 2, requesting previews for A, B, C in order evicts A's master
and every variant keyed with A's asset id while B and C stay resident (and exactly
two masters remain); and, in general, any `scaled_preview` call on a well-formed
cache (duplicate-free recency queue) preserves well-formedness and the invariant
that no variant entry's asset lacks a resident master. -/
theorem lru_eviction_and_variant_invariant :
    (alookup "A" stABC.masters = none ∧
      stABC.variants.all (fun p => !(strStarts ("A" ++ ":") p.1)) = true ∧
      (alookup "B" stABC.masters).isSome = true ∧
      (alookup "C" stABC.masters).isSome = true ∧
      stABC.masters.length = 2) ∧
    (∀ (ctx : Ctx) (asset_id path : String) (dim : Nat) (st : CacheState),
      st.lru.Nodup → VariantsCovered st →
      (scaled_preview ctx asset_id path dim st).2.lru.Nodup ∧
        VariantsCovered (scaled_preview ctx asset_id path dim st).2) := by
  constructor
  · exact ⟨by decide, by decide, by decide, by decide, by decide⟩
  · intro ctx asset_id path dim st hN hC
    exact scaled_preview_wf ctx asset_id path dim st hN hC

theorem lru_eviction_and_variant_invariant_witness :
    (scaled_preview ctxBig "A" "p" 800 CacheState.empty).2.lru.Nodup ∧
      VariantsCovered (scaled_preview ctxBig "A" "p" 800 CacheState.empty).2 :=
  lru_eviction_and_variant_invariant.2 ctxBig "A" "p" 800 CacheState.empty
    List.nodup_nil (fun p hp => absurd hp (List.not_mem_nil p))

/-! ### C3: decode schedule of the 800 / 2000 / 800 request sequence -/

lemma c3_render (ctx : Ctx) (path : String) (img : Img)
    (hdec : ctx.decode path = .ok img) (hw : 1 ≤ img.w) :
    ∀ t : Nat, 1 ≤ t → render_resized ctx path t =
      .ok (resize_rgba_preserve_aspect ctx img (min t (max img.w img.h))) := by
  intro t ht
  rw [render_resized_ok_eq ctx path t img hdec]
  have hmm : min (max t 1) (max (max img.w img.h) 1) = min t (max img.w img.h) := by
    omega
  rw [hmm]

lemma c3_maxdim (ctx : Ctx) (img : Img) (hw : 1 ≤ img.w) (hh : 1 ≤ img.h) :
    ∀ t : Nat, 1 ≤ t →
      max (max (resize_rgba_preserve_aspect ctx img (min t (max img.w img.h))).w
        (resize_rgba_preserve_aspect ctx img (min t (max img.w img.h))).h) 1 =
      min t (max img.w img.h) := by
  intro t ht
  rw [resize_rgba_max_dim ctx img _ hw hh]
  omega

lemma c3_aux (ctx : Ctx) (asset path : String) (img : Img)
    (V : List (String × Img)) (e1 : CachedPreview)
    (hdec : ctx.decode path = .ok img) (hw : 1 ≤ img.w) (hh : 1 ≤ img.h)
    (hs : 800 ≤ max img.w img.h) (he1 : e1.max_dim ≤ 1920)
    (hVf : V.filter (fun p => !(strStarts (asset ++ ":") p.1)) = []) :
    ((scaled_preview ctx asset path 800
      (scaled_preview ctx asset path 2000
        (⟨[(asset, e1)], V, [asset], [1920]⟩ : CacheState)).2).2).decodeLog =
      [1920, 2000] := by
  have hnd2 : normalize_dimension 2000 = 2000 := rfl
  have hnd8 : normalize_dimension 800 = 800 := rfl
  have hdt2 : min (max 2000 PREVIEW_MASTER_BASE) PREVIEW_MAX_DIM = 2000 := rfl
  have hA1 : alookup asset [(asset, e1)] = some e1 := by simp [alookup]
  have h2m : master_preview ctx asset path 2000
      (⟨[(asset, e1)], V, [asset], [1920]⟩ : CacheState) =
      (.ok ⟨resize_rgba_preserve_aspect ctx img (min 2000 (max img.w img.h)),
          min 2000 (max img.w img.h)⟩,
        ⟨[(asset, ⟨resize_rgba_preserve_aspect ctx img (min 2000 (max img.w img.h)),
            min 2000 (max img.w img.h)⟩)], [], [asset], [1920, 2000]⟩) := by
    simp only [master_preview, hnd2, hA1]
    split
    · rename_i hcond
      exact absurd hcond (by omega)
    · simp only [master_preview_decode, hdt2,
        c3_render ctx path img hdec hw 2000 (by omega)]
      simp [store_master, drop_variants_for, touch_asset, evict_if_needed, ainsert,
        aremove, hVf, c3_maxdim ctx img hw hh 2000 (by omega), PREVIEW_CACHE_ASSETS,
        List.filter_cons]
  have h2s : scaled_preview ctx asset path 2000
      (⟨[(asset, e1)], V, [asset], [1920]⟩ : CacheState) =
      (.ok (resize_rgba_preserve_aspect ctx img (min 2000 (max img.w img.h))),
        ⟨[(asset, ⟨resize_rgba_preserve_aspect ctx img (min 2000 (max img.w img.h)),
            min 2000 (max img.w img.h)⟩)], [], [asset], [1920, 2000]⟩) := by
    simp only [scaled_preview, hnd2, h2m]
    split
    · rfl
    · rename_i hcond
      exact absurd (le_trans (Nat.sub_le _ 4) (min_le_left _ _)) hcond
  rw [h2s]
  have hA2 : alookup asset
      [(asset, (⟨resize_rgba_preserve_aspect ctx img (min 2000 (max img.w img.h)),
        min 2000 (max img.w img.h)⟩ : CachedPreview))] =
      some ⟨resize_rgba_preserve_aspect ctx img (min 2000 (max img.w img.h)),
        min 2000 (max img.w img.h)⟩ := by simp [alookup]
  have htouch : touch_asset asset
      (⟨[(asset, ⟨resize_rgba_preserve_aspect ctx img (min 2000 (max img.w img.h)),
          min 2000 (max img.w img.h)⟩)], [], [asset], [1920, 2000]⟩ : CacheState) =
      ⟨[(asset, ⟨resize_rgba_preserve_aspect ctx img (min 2000 (max img.w img.h)),
          min 2000 (max img.w img.h)⟩)], [], [asset], [1920, 2000]⟩ := by
    simp [touch_asset]
  have h3m : master_preview ctx asset path 800
      (⟨[(asset, ⟨resize_rgba_preserve_aspect ctx img (min 2000 (max img.w img.h)),
          min 2000 (max img.w img.h)⟩)], [], [asset], [1920, 2000]⟩ : CacheState) =
      (.ok ⟨resize_rgba_preserve_aspect ctx img (min 2000 (max img.w img.h)),
          min 2000 (max img.w img.h)⟩,
        ⟨[(asset, ⟨resize_rgba_preserve_aspect ctx img (min 2000 (max img.w img.h)),
            min 2000 (max img.w img.h)⟩)], [], [asset], [1920, 2000]⟩) := by
    simp only [master_preview, hnd8, hA2]
    split
    · rw [htouch]
    · rename_i hcond
      exact absurd (le_min (by omega) hs) hcond
  simp only [scaled_preview, hnd8, h3m]
  split
  · rfl
  · rfl

/-- C3 (amended): for every asset whose decoded source has larger side at least
800, the request sequence with clamped dimensions 800 then 2000 then 800 performs
exactly two decodes — the first at `max(clamp(800), 1920) = 1920`, one more at 2000
— and the final 800 request is served from the cached master/variants with no
further decode, so the decode log of the run is exactly `[1920, 2000]`. -/
theorem preview_decode_schedule (ctx : Ctx) (asset path : String) (img : Img)
    (hdec : ctx.decode path = .ok img) (hw : 1 ≤ img.w) (hh : 1 ≤ img.h)
    (hs : 800 ≤ max img.w img.h) :
    ((scaled_preview ctx asset path 800
      (scaled_preview ctx asset path 2000
        (scaled_preview ctx asset path 800 CacheState.empty).2).2).2).decodeLog =
      [1920, 2000] := by
  have hnd8 : normalize_dimension 800 = 800 := rfl
  have hdt8 : min (max 800 PREVIEW_MASTER_BASE) PREVIEW_MAX_DIM = 1920 := rfl
  have h1m : master_preview ctx asset path 800 CacheState.empty =
      (.ok ⟨resize_rgba_preserve_aspect ctx img (min 1920 (max img.w img.h)),
          min 1920 (max img.w img.h)⟩,
        ⟨[(asset, ⟨resize_rgba_preserve_aspect ctx img (min 1920 (max img.w img.h)),
            min 1920 (max img.w img.h)⟩)], [], [asset], [1920]⟩) := by
    simp only [master_preview, hnd8, CacheState.empty, alookup]
    simp only [master_preview_decode, hdt8,
      c3_render ctx path img hdec hw 1920 (by omega)]
    simp [store_master, drop_variants_for, touch_asset, evict_if_needed, ainsert,
      aremove, c3_maxdim ctx img hw hh 1920 (by omega), PREVIEW_CACHE_ASSETS]
  simp only [scaled_preview, hnd8, h1m]
  by_cases hb1 : min 1920 (max img.w img.h) - 4 ≤ 800
  · rw [if_pos hb1]
    exact c3_aux ctx asset path img []
      ⟨resize_rgba_preserve_aspect ctx img (min 1920 (max img.w img.h)),
        min 1920 (max img.w img.h)⟩
      hdec hw hh hs (min_le_left _ _) rfl
  · rw [if_neg hb1]
    simp only [alookup]
    have hv1 : evict_if_needed (touch_asset asset
        (⟨[(asset, ⟨resize_rgba_preserve_aspect ctx img (min 1920 (max img.w img.h)),
              min 1920 (max img.w img.h)⟩)],
          ainsert (cache_key asset 800)
            (resize_rgba_preserve_aspect ctx
              (resize_rgba_preserve_aspect ctx img (min 1920 (max img.w img.h))) 800)
            [],
          [asset], [1920]⟩ : CacheState)) =
        ⟨[(asset, ⟨resize_rgba_preserve_aspect ctx img (min 1920 (max img.w img.h)),
            min 1920 (max img.w img.h)⟩)],
          [(cache_key asset 800,
            resize_rgba_preserve_aspect ctx
              (resize_rgba_preserve_aspect ctx img (min 1920 (max img.w img.h))) 800)],
          [asset], [1920]⟩ := by
      simp [touch_asset, evict_if_needed, ainsert, PREVIEW_CACHE_ASSETS]
    rw [hv1]
    exact c3_aux ctx asset path img
      [(cache_key asset 800,
        resize_rgba_preserve_aspect ctx
          (resize_rgba_preserve_aspect ctx img (min 1920 (max img.w img.h))) 800)]
      ⟨resize_rgba_preserve_aspect ctx img (min 1920 (max img.w img.h)),
        min 1920 (max img.w img.h)⟩
      hdec hw hh hs (min_le_left _ _) (by simp [strStarts_cache_key])

set_option maxRecDepth 8192 in
/-- C3 counterexample: for a 100-by-100 source the same 800 / 2000 / 800 sequence
performs three decodes (at 1920, 2000 and 1920 again) — the final 800 request
misses because the tiny master's `max_dim` is 100 — so "exactly two decodes"
fails. -/
theorem preview_decode_schedule_counterexample :
    ((scaled_preview ctxTiny100 "a" "p" 800
      (scaled_preview ctxTiny100 "a" "p" 2000
        (scaled_preview ctxTiny100 "a" "p" 800 CacheState.empty).2).2).2).decodeLog =
      [1920, 2000, 1920] := by decide

theorem preview_decode_schedule_witness :
    ((scaled_preview ctxBig "A" "p" 800
      (scaled_preview ctxBig "A" "p" 2000
        (scaled_preview ctxBig "A" "p" 800 CacheState.empty).2).2).2).decodeLog =
      [1920, 2000] :=
  preview_decode_schedule ctxBig "A" "p" ⟨2000, 1000, []⟩ rfl (by decide) (by decide)
    (by decide)

end Openroom
